import Mathlib

/-!
Verification development for the AutoTutor client core (`src/App.jsx`).

The program is a single-file React client.  We shallowly embed its core:
the JSON extraction helper `extractJSON`, the lesson-normalization and
fallback logic inside `fetchLesson`, the chat flow `sendChatMessage`
(with its 10-turn history window), the quiz state machine
(`selectOption`, `submitQuiz`), and the startup snapshot-loading effect.
JavaScript values flowing out of `JSON.parse` are modelled by the `Json`
inductive; JavaScript truthiness, strict equality against possibly-absent
properties, and `Array.isArray` coercion are modelled explicitly.
-/

namespace AutoTutor

/-- JavaScript values produced by `JSON.parse` (numbers restricted to
integers, which suffices for every input considered here). Objects keep
their fields in insertion order; duplicate keys are resolved by
last-write-wins lookup, matching `JSON.parse` semantics. -/
inductive Json where
  | null : Json
  | bool (b : Bool) : Json
  | num (n : Int) : Json
  | str (s : String) : Json
  | arr (elems : List Json) : Json
  | obj (fields : List (String × Json)) : Json

/-- JavaScript truthiness of a `Json` value: `null`, `false`, `0` and the
empty string are falsy; every other value (including the empty array and
empty object) is truthy. -/
def Json.truthy : Json → Bool
  | Json.null => false
  | Json.bool b => b
  | Json.num n => n != 0
  | Json.str s => s != ""
  | Json.arr _ => true
  | Json.obj _ => true

/-- Property lookup on a parsed object: the last binding for a key wins,
as in an object built by successive property assignments. -/
def lookupLast (fields : List (String × Json)) (k : String) : Option Json :=
  fields.foldl (fun acc p => if p.1 = k then some p.2 else acc) none

/-- JavaScript property access `v.k`: `some` for a present object field,
`none` (undefined) for absent fields or non-object values. -/
def Json.getField : Json → String → Option Json
  | Json.obj fields, k => lookupLast fields k
  | _, _ => none

/-- Truthiness of a possibly-absent property: `undefined` is falsy. -/
def truthyOpt : Option Json → Bool
  | none => false
  | some v => v.truthy

/-- The quiz coercion of `fetchLesson`:
`Array.isArray(parsed.quiz) ? parsed.quiz : []`. -/
def coerceQuiz : Json → List Json
  | Json.arr elems => elems
  | _ => []

/-- Whitespace accepted between JSON tokens by `JSON.parse`. -/
def isJsonWs (c : Char) : Bool :=
  c == ' ' || c == '\t' || c == '\n' || c == '\r'

/-- Drop inter-token whitespace. -/
def skipWs (cs : List Char) : List Char :=
  cs.dropWhile isJsonWs

/-- Translate a JSON string escape character to the character it denotes
(`\u` escapes are not supported; inputs using them are treated as
unparsable, a strict under-approximation of `JSON.parse`). -/
def unescape (c : Char) : Option Char :=
  if c = '"' then some '"'
  else if c = '\\' then some '\\'
  else if c = '/' then some '/'
  else if c = 'n' then some '\n'
  else if c = 't' then some '\t'
  else if c = 'r' then some '\r'
  else if c = 'b' then some (Char.ofNat 8)
  else if c = 'f' then some (Char.ofNat 12)
  else none

/-- Parse the remainder of a JSON string literal (the opening quote has
been consumed), returning the decoded string and the rest of the input. -/
def parseStringRest : List Char → List Char → Option (String × List Char)
  | acc, '"' :: rest => some (String.mk acc.reverse, rest)
  | acc, '\\' :: c :: rest =>
    match unescape c with
    | some d => parseStringRest (d :: acc) rest
    | none => none
  | acc, c :: rest =>
    if c.toNat < 32 then none else parseStringRest (c :: acc) rest
  | _, [] => none

/-- Parse an integer JSON number (optional minus sign, digit run; a
following `.`, `e` or `E` makes the input unparsable here, again a strict
under-approximation of `JSON.parse`). -/
def parseNum (cs : List Char) : Option (Json × List Char) :=
  let sign : Int := if cs.head? = some '-' then -1 else 1
  let body := if cs.head? = some '-' then cs.drop 1 else cs
  let digits := body.takeWhile Char.isDigit
  let rest := body.dropWhile Char.isDigit
  if digits.isEmpty then none
  else if rest.head? = some '.' || rest.head? = some 'e' || rest.head? = some 'E' then none
  else
    let n : Int := digits.foldl (fun acc c => acc * 10 + (Int.ofNat (c.toNat - 48))) 0
    some (Json.num (sign * n), rest)

mutual

/-- Fuel-indexed recursive-descent parser for one JSON value. -/
def parseVal : Nat → List Char → Option (Json × List Char)
  | 0, _ => none
  | Nat.succ fuel, cs =>
    match skipWs cs with
    | 'n' :: 'u' :: 'l' :: 'l' :: rest => some (Json.null, rest)
    | 't' :: 'r' :: 'u' :: 'e' :: rest => some (Json.bool true, rest)
    | 'f' :: 'a' :: 'l' :: 's' :: 'e' :: rest => some (Json.bool false, rest)
    | '"' :: rest =>
      match parseStringRest [] rest with
      | some (s, rest2) => some (Json.str s, rest2)
      | none => none
    | '{' :: rest =>
      match skipWs rest with
      | '}' :: rest2 => some (Json.obj [], rest2)
      | cs2 => parseMembers fuel cs2 []
    | '[' :: rest =>
      match skipWs rest with
      | ']' :: rest2 => some (Json.arr [], rest2)
      | cs2 => parseElems fuel cs2 []
    | c :: rest =>
      if c = '-' || c.isDigit then parseNum (c :: rest) else none
    | [] => none

/-- Parse the members of a JSON object after `{` (first member onward). -/
def parseMembers : Nat → List Char → List (String × Json) → Option (Json × List Char)
  | 0, _, _ => none
  | Nat.succ fuel, cs, acc =>
    match skipWs cs with
    | '"' :: rest =>
      match parseStringRest [] rest with
      | some (key, rest2) =>
        match skipWs rest2 with
        | ':' :: rest3 =>
          match parseVal fuel rest3 with
          | some (v, rest4) =>
            match skipWs rest4 with
            | ',' :: rest5 => parseMembers fuel rest5 (acc ++ [(key, v)])
            | '}' :: rest5 => some (Json.obj (acc ++ [(key, v)]), rest5)
            | _ => none
          | none => none
        | _ => none
      | none => none
    | _ => none

/-- Parse the elements of a JSON array after `[` (first element onward). -/
def parseElems : Nat → List Char → List Json → Option (Json × List Char)
  | 0, _, _ => none
  | Nat.succ fuel, cs, acc =>
    match parseVal fuel cs with
    | some (v, rest) =>
      match skipWs rest with
      | ',' :: rest2 => parseElems fuel rest2 (acc ++ [v])
      | ']' :: rest2 => some (Json.arr (acc ++ [v]), rest2)
      | _ => none
    | none => none

end

/-- Model of `JSON.parse(s)`: parse one value, then require at most
trailing whitespace. Returns `none` where `JSON.parse` would throw. -/
def parseJson (s : String) : Option Json :=
  match parseVal (2 * s.length + 4) s.data with
  | some (v, rest) => if (skipWs rest).isEmpty then some v else none
  | none => none

/-- Keep the characters of `cs` up to and including the last occurrence
of `ch` (greedy regex tail `[\s\S]*` followed by a literal delimiter). -/
def takeUpToLast (cs : List Char) (ch : Char) : List Char :=
  ((cs.reverse.dropWhile (fun c => c != ch)).reverse)

/-- Attempt the regex alternation at the current position: the first
branch matches from a `{` to the last `}`, the second from a `[` to the
last `]` (alternatives tried in order, tail greedy). -/
def matchAt : List Char → Option (List Char)
  | [] => none
  | c :: rest =>
    if c = '{' && rest.contains '}' then some (c :: takeUpToLast rest '}')
    else if c = '[' && rest.contains ']' then some (c :: takeUpToLast rest ']')
    else none

/-- Model of `text.match(/\x7b[\s\S]*\x7d|\[[\s\S]*\]/)`: scan start
positions left to right and return the first (greedy) match. -/
def jsonMatch : List Char → Option (List Char)
  | [] => none
  | c :: rest =>
    match matchAt (c :: rest) with
    | some m => some m
    | none => jsonMatch rest

/-- Model of the source helper `extractJSON`: return `null` for empty
text, else try a direct parse, else parse the regex-extracted block. -/
def extractJSON (text : String) : Option Json :=
  if text = "" then none
  else
    match parseJson text with
    | some v => some v
    | none =>
      match jsonMatch text.data with
      | some sub => parseJson (String.mk sub)
      | none => none

/-- A validated lesson record as produced by the success branch of
`fetchLesson`: the values stored by `setLesson`, `setQuiz` (after
`Array.isArray` coercion) and `setSummary`. -/
structure LessonRecord where
  lesson : Json
  quiz : List Json
  summary : Json

/-- The Response Normalizer: `extractJSON` followed by the acceptance
test `parsed && parsed.lesson && parsed.quiz && parsed.summary` of
`fetchLesson`, with the quiz coercion applied on success. `none` models
a `NormalizationFailure`. -/
def normalize (raw : String) : Option LessonRecord :=
  match extractJSON raw with
  | none => none
  | some parsed =>
    if parsed.truthy && truthyOpt (parsed.getField "lesson")
        && truthyOpt (parsed.getField "quiz") && truthyOpt (parsed.getField "summary") then
      some { lesson := (parsed.getField "lesson").getD Json.null
             quiz := coerceQuiz ((parsed.getField "quiz").getD Json.null)
             summary := (parsed.getField "summary").getD Json.null }
    else none

/-- Lesson text of the fallback branch:
`rawText || Lesson generation failed for "topic". Check console.` -/
def fallbackLesson (topic raw : String) : String :=
  if raw = "" then "Lesson generation failed for \"" ++ topic ++ "\". Check console." else raw

/-- The two hard-coded fallback quiz items of `fetchLesson`. -/
def fallbackQuiz (topic : String) : List Json :=
  [ Json.obj [("q", Json.str ("What is " ++ topic ++ "?")),
      ("a", Json.arr [Json.str "A function", Json.str "A concept", Json.str "A library"]),
      ("correct", Json.str "A concept")],
    Json.obj [("q", Json.str ("Why is " ++ topic ++ " important?")),
      ("a", Json.arr [Json.str "For styling", Json.str "For organization", Json.str "For memory"]),
      ("correct", Json.str "For organization")] ]

/-- The hard-coded fallback summary sentence of `fetchLesson`. -/
def fallbackSummary (topic : String) : String :=
  topic ++ " helps developers write clean and maintainable code."

/-- The Fallback Synthesizer: the `else` branch of `fetchLesson`,
assembled as a pure function of the topic and the raw model text. -/
def synthesize (topic raw : String) : LessonRecord :=
  { lesson := Json.str (fallbackLesson topic raw)
    quiz := fallbackQuiz topic
    summary := Json.str (fallbackSummary topic) }

/-- Chat roles, as in the `role` field of the message objects. -/
inductive Role where
  | user : Role
  | assistant : Role
deriving DecidableEq

/-- One chat message `{role, content}`. -/
structure ChatTurn where
  role : Role
  content : String
deriving DecidableEq

/-- The React state of the `App` component (the fields the core logic
touches). `selected` models the selection object as a partial map from
question index to chosen option; `score` is `null` or an integer count. -/
structure AppState where
  topic : String
  lesson : Json
  quiz : List Json
  summary : Json
  selected : Nat → Option String
  score : Option Nat
  loading : Bool
  messages : List ChatTurn
  chatInput : String
  chatLoading : Bool

/-- The initial component state. -/
def emptyState : AppState :=
  { topic := ""
    lesson := Json.str ""
    quiz := []
    summary := Json.str ""
    selected := fun _ => none
    score := none
    loading := false
    messages := []
    chatInput := ""
    chatLoading := false }

/-- The persisted `autotutor-progress` snapshot (the Session Store
collaborator stores it under one well-known key). `selected`/`score` are
optional because the save sites differ in which fields they include. -/
structure Snapshot where
  topic : String
  lesson : Json
  quiz : List Json
  summary : Json
  selected : Option (Nat → Option String)
  score : Option Nat

/-- Model of `String.prototype.trim` on the whitespace the inputs use. -/
def jsTrim (s : String) : String :=
  String.mk (((s.data.dropWhile isJsonWs).reverse.dropWhile isJsonWs).reverse)

/-- Outcome of the lesson-generation transport call: the raw response
text obtained from the completion endpoint, or a thrown error
(network failure / unreadable body). -/
inductive FetchOutcome where
  | success (raw : String) : FetchOutcome
  | failure : FetchOutcome

/-- The transport-error alert text of `fetchLesson`. -/
def transportAlert : String :=
  "Error connecting to Groq API — check console and your API key."

/-- Model of `fetchLesson`, parameterized by the transport outcome.
Returns the new state, an alert surfaced to the user (if any), and
whether a transport request was issued.  Mirrors the source: the guard
only checks `topic.trim()`; all lesson/quiz/chat state is cleared before
the request; the success branch applies `normalize` or the fallback; the
catch branch alerts; `finally` clears `loading`.  (The success-path
`localStorage` save of `{topic, ...parsed}` is not consumed by any
property below and is elided here; the quiz-interaction saves are
modelled on `selectOption`/`submitQuiz`.) -/
def fetchLesson (outcome : FetchOutcome) (st : AppState) : AppState × Option String × Bool :=
  if jsTrim st.topic = "" then (st, some "Please enter a topic first!", false)
  else
    let st1 : AppState :=
      { st with
          loading := true
          lesson := Json.str ""
          quiz := []
          summary := Json.str ""
          score := none
          selected := fun _ => none
          messages := [] }
    match outcome with
    | FetchOutcome.failure => ({ st1 with loading := false }, some transportAlert, true)
    | FetchOutcome.success raw =>
      match normalize raw with
      | some rec =>
        ({ st1 with
             lesson := rec.lesson
             quiz := rec.quiz
             summary := rec.summary
             loading := false }, none, true)
      | none =>
        let fb := synthesize st.topic raw
        ({ st1 with
             lesson := fb.lesson
             quiz := fb.quiz
             summary := fb.summary
             loading := false }, none, true)

/-- Model of `messages.slice(-10)`: the last ten turns (or all of them
when the history is shorter). -/
def windowForPrompt (history : List ChatTurn) : List ChatTurn :=
  history.drop (history.length - 10)

/-- Outcome of the chat transport call. -/
inductive ChatOutcome where
  | success (raw : String) : ChatOutcome
  | failure : ChatOutcome

/-- The diagnostic assistant message appended when the chat request
throws. -/
def chatErrorText : String :=
  "Sorry — there was an error fetching a response. Check console."

/-- The assistant turn content a completed chat call appends: the raw
response text on success, the fixed diagnostic text on failure. -/
def assistantReply : ChatOutcome → String
  | ChatOutcome.success raw => raw
  | ChatOutcome.failure => chatErrorText

/-- Model of `sendChatMessage`, parameterized by the transport outcome.
Returns the new state and whether a transport request was issued.  The
entry guard `if (!userText || chatLoading) return;` rejects the call
without side effects; otherwise the user turn is appended, the request
is built from `windowForPrompt` of the pre-call history plus the user
turn, and a completed call appends the assistant turn. -/
def sendChatMessage (userText : String) (outcome : ChatOutcome) (st : AppState) :
    AppState × Bool :=
  if userText = "" || st.chatLoading then (st, false)
  else
    let userMsg : ChatTurn := { role := Role.user, content := userText }
    let assistantMsg : ChatTurn := { role := Role.assistant, content := assistantReply outcome }
    ({ st with
         messages := st.messages ++ [userMsg, assistantMsg]
         chatInput := ""
         chatLoading := false }, true)

/-- Strict equality `selected[i] === q.correct` between a possibly-absent
selection (undefined or a string) and a possibly-absent property value:
true when both are undefined or both are the same string. -/
def jsStrictEq : Option String → Option Json → Bool
  | none, none => true
  | some s, some (Json.str t) => s == t
  | _, _ => false

/-- The score computation of `submitQuiz`: count the indices whose
selection is strictly equal to the item's `correct` property. -/
def countScore (quiz : List Json) (sel : Nat → Option String) : Nat :=
  (quiz.enum.filter (fun p => jsStrictEq (sel p.1) (p.2.getField "correct"))).length

/-- Model of `selectOption`: a silent no-op once `score` is set;
otherwise overwrite the selection for the index and persist a snapshot
(which carries `selected` but no `score` field). -/
def selectOption (qIndex : Nat) (opt : String) (st : AppState) : AppState × Option Snapshot :=
  if st.score ≠ none then (st, none)
  else
    let next : Nat → Option String := fun j => if j = qIndex then some opt else st.selected j
    ({ st with selected := next },
     some { topic := st.topic
            lesson := st.lesson
            quiz := st.quiz
            summary := st.summary
            selected := some next
            score := none })

/-- Model of `submitQuiz`: a no-op on an empty quiz; otherwise set the
score and persist a snapshot carrying both `selected` and `score`. -/
def submitQuiz (st : AppState) : AppState × Option Snapshot :=
  if st.quiz.length = 0 then (st, none)
  else
    let s := countScore st.quiz st.selected
    ({ st with score := some s },
     some { topic := st.topic
            lesson := st.lesson
            quiz := st.quiz
            summary := st.summary
            selected := some st.selected
            score := some s })

/-- Model of the startup load effect: rehydrate `topic`, `lesson`,
`quiz` and `summary` (each with the `|| default` fallback of the
source); the effect reads no other snapshot field and touches no other
state. -/
def loadSnapshot (snap : Snapshot) (st : AppState) : AppState :=
  { st with
      topic := if snap.topic = "" then "" else snap.topic
      lesson := if snap.lesson.truthy then snap.lesson else Json.str ""
      quiz := snap.quiz
      summary := if snap.summary.truthy then snap.summary else Json.str "" }

/-- A quiz item of the abstract data model: a question, its option
list, and the correct option (source field names `q`, `a`, `correct`). -/
structure QuizItem where
  q : String
  a : List String
  correct : String
deriving DecidableEq

/-- The JavaScript object a `QuizItem` denotes. -/
def encodeItem (it : QuizItem) : Json :=
  Json.obj [("q", Json.str it.q), ("a", Json.arr (it.a.map Json.str)),
            ("correct", Json.str it.correct)]

mutual

/-- Structural equality of `Json` values (used to express option
distinctness and membership). -/
def jeq : Json → Json → Bool
  | Json.null, Json.null => true
  | Json.bool a, Json.bool b => a == b
  | Json.num a, Json.num b => a == b
  | Json.str a, Json.str b => a == b
  | Json.arr xs, Json.arr ys => jeqList xs ys
  | Json.obj xs, Json.obj ys => jeqFields xs ys
  | _, _ => false

/-- Elementwise `jeq` on arrays. -/
def jeqList : List Json → List Json → Bool
  | [], [] => true
  | x :: xs, y :: ys => jeq x y && jeqList xs ys
  | _, _ => false

/-- Fieldwise `jeq` on objects. -/
def jeqFields : List (String × Json) → List (String × Json) → Bool
  | [], [] => true
  | (k1, v1) :: xs, (k2, v2) :: ys => k1 == k2 && jeq v1 v2 && jeqFields xs ys
  | _, _ => false

end

/-- Pairwise distinctness of a list of `Json` values. -/
def distinctJson : List Json → Bool
  | [] => true
  | x :: xs => !(xs.any (jeq x)) && distinctJson xs

/-- The QuizItem invariant of the data model, read off a surfaced quiz
item object: the `a` property is an array of exactly three pairwise
distinct values, and the `correct` property is one of them. -/
def quizItemValid (j : Json) : Bool :=
  match j with
  | Json.obj fs =>
    match lookupLast fs "a", lookupLast fs "correct" with
    | some (Json.arr opts), some c =>
      opts.length == 3 && distinctJson opts && opts.any (jeq c)
    | _, _ => false
  | _ => false

/-- The fold applying a sequence of `select` calls to a state. -/
def applySelects (ops : List (Nat × String)) (st : AppState) : AppState :=
  ops.foldl (fun s p => (selectOption p.1 p.2 s).1) st

/-- The final selection for index `i` determined by a sequence of
`select` calls: the last written option, if any. -/
def finalSel (ops : List (Nat × String)) (i : Nat) : Option String :=
  ops.foldl (fun acc p => if i = p.1 then some p.2 else acc) none

/-- A fresh quiz session over the given items. -/
def initQuizState (quiz : List Json) : AppState :=
  { emptyState with quiz := quiz }

/-- Reading a field of an object value is last-wins lookup. -/
lemma getField_obj (fs : List (String × Json)) (k : String) :
    (Json.obj fs).getField k = lookupLast fs k := rfl

/-- A sequence of `select` calls on an unsubmitted session never touches
the quiz or the score, and leaves each index holding the last option
written for it. -/
lemma applySelects_spec (ops : List (Nat × String)) (st : AppState) (h : st.score = none) :
    (applySelects ops st).score = none
    ∧ (applySelects ops st).quiz = st.quiz
    ∧ ∀ i, (applySelects ops st).selected i
        = ops.foldl (fun acc p => if i = p.1 then some p.2 else acc) (st.selected i) := by
  induction ops generalizing st with
  | nil => exact ⟨h, rfl, fun i => rfl⟩
  | cons op rest ih =>
    have hsel : (selectOption op.1 op.2 st).1
        = { st with selected := fun j => if j = op.1 then some op.2 else st.selected j } := by
      unfold selectOption
      rw [if_neg (fun hc => hc h)]
    have hstep : applySelects (op :: rest) st = applySelects rest (selectOption op.1 op.2 st).1 := rfl
    rw [hstep, hsel]
    obtain ⟨a, b, c⟩ :=
      ih { st with selected := fun j => if j = op.1 then some op.2 else st.selected j } h
    refine ⟨a, b, fun i => ?_⟩
    rw [c i]
    by_cases hip : i = op.1
    · simp [hip]
    · simp [hip, Ne.symm hip]

/-- The score count only depends on the pointwise values of the
selection map. -/
lemma countScore_congr (quiz : List Json) (s1 s2 : Nat → Option String)
    (h : ∀ i, s1 i = s2 i) : countScore quiz s1 = countScore quiz s2 := by
  unfold countScore
  congr 1
  refine List.filter_congr (fun p _ => ?_)
  rw [h p.1]

/-- Reading the `correct` property of an encoded quiz item. -/
lemma getField_encodeItem_correct (it : QuizItem) :
    (encodeItem it).getField "correct" = some (Json.str it.correct) := rfl

/-- Strict equality against a present string property coincides with
option/string equality of the selection. -/
lemma jsStrictEq_some_str (o : Option String) (c : String) :
    jsStrictEq o (some (Json.str c)) = (o == some c) := by
  cases o <;> rfl

/-- The score of an encoded item list counts the indices whose selection
equals the item's correct option. -/
lemma countScore_encode_aux (sel : Nat → Option String) (items : List QuizItem) :
    ∀ n : Nat,
      (((items.map encodeItem).enumFrom n).filter
          (fun p => jsStrictEq (sel p.1) (p.2.getField "correct"))).length
        = ((items.enumFrom n).filter (fun p => sel p.1 == some p.2.correct)).length := by
  induction items with
  | nil => intro n; rfl
  | cons it rest ih =>
    intro n
    have hhead : jsStrictEq (sel n) ((encodeItem it).getField "correct")
        = (sel n == some it.correct) := by
      rw [getField_encodeItem_correct, jsStrictEq_some_str]
    show (((n, encodeItem it) :: ((rest.map encodeItem).enumFrom (n + 1))).filter
        (fun p => jsStrictEq (sel p.1) (p.2.getField "correct"))).length
      = (((n, it) :: (rest.enumFrom (n + 1))).filter
        (fun p => sel p.1 == some p.2.correct)).length
    rw [List.filter_cons, List.filter_cons]
    by_cases hb : (sel n == some it.correct) = true
    · simp only [hhead, hb, if_pos, List.length_cons, ih (n + 1)]
    · simp only [hhead, hb, if_neg, Bool.false_eq_true, if_false, ih (n + 1)]

/-- `countScore` over encoded items, stated on `List.enum`. -/
lemma countScore_encode (items : List QuizItem) (sel : Nat → Option String) :
    countScore (items.map encodeItem) sel
      = ((items.enum.filter (fun p => sel p.1 == some p.2.correct))).length :=
  countScore_encode_aux sel items 0

/-- C5: for every topic and raw text, `synthesize` deterministically
returns a record whose quiz has exactly 2 items, whose lesson is the raw
text when non-empty and otherwise the templated failure message
containing the topic, and whose summary is the fixed templated sentence
referencing the topic. -/
theorem c5_synthesize_spec (topic raw : String) :
    (synthesize topic raw).quiz.length = 2
    ∧ (synthesize topic raw).lesson = Json.str (if raw = ""
        then "Lesson generation failed for \"" ++ topic ++ "\". Check console." else raw)
    ∧ (∃ pre post, fallbackLesson topic "" = pre ++ topic ++ post)
    ∧ (synthesize topic raw).summary
        = Json.str (topic ++ " helps developers write clean and maintainable code.")
    ∧ (∃ post, fallbackSummary topic = topic ++ post) :=
  ⟨rfl, rfl,
    ⟨"Lesson generation failed for \"", "\". Check console.", rfl⟩,
    rfl, ⟨" helps developers write clean and maintainable code.", rfl⟩⟩

/-- C8: the prompt window never exceeds 10 turns and consists of exactly
the chronologically last turns of the history, in their original order
(the history splits as a dropped prefix followed by the window). -/
theorem c8_window_spec (history : List ChatTurn) :
    (windowForPrompt history).length ≤ 10
    ∧ (windowForPrompt history).length = min 10 history.length
    ∧ history.take (history.length - 10) ++ windowForPrompt history = history := by
  refine ⟨?_, ?_, List.take_append_drop _ _⟩
  · rw [windowForPrompt, List.length_drop]; omega
  · rw [windowForPrompt, List.length_drop]; omega

/-- C7: once the score is set, `select` is a structural no-op, and
submitting is idempotent in effect: a second `submit` leaves the state
(score and selections included) exactly as after the first. -/
theorem c7_locked_after_submit (st : AppState) (i : Nat) (opt : String)
    (h : st.score ≠ none) :
    (selectOption i opt st).1 = st
    ∧ (submitQuiz (submitQuiz st).1).1 = (submitQuiz st).1 := by
  constructor
  · unfold selectOption
    rw [if_pos h]
  · by_cases hq : st.quiz.length = 0
    · unfold submitQuiz
      rw [if_pos hq, if_pos hq]
    · unfold submitQuiz
      rw [if_neg hq]
      simp only
      rw [if_neg hq]

/-- C7 witness: the locking behavior at a concrete graded session. -/
theorem c7_witness :
    (selectOption 0 "x" { emptyState with quiz := fallbackQuiz "T", score := some 0 }).1
        = { emptyState with quiz := fallbackQuiz "T", score := some 0 }
    ∧ (submitQuiz (submitQuiz { emptyState with quiz := fallbackQuiz "T", score := some 0 }).1).1
        = (submitQuiz { emptyState with quiz := fallbackQuiz "T", score := some 0 }).1 :=
  c7_locked_after_submit { emptyState with quiz := fallbackQuiz "T", score := some 0 } 0 "x"
    (by decide)

/-- C3: the chat entry guard rejects a `sendChatMessage` call while a
prior chat request is outstanding (no second transport call, state
untouched), but `fetchLesson` checks only the topic and issues a second
transport request even when `loading` is true — reachable in the UI via
the topic input's Enter handler, which is not disabled while a request
is in flight. -/
theorem c3_request_guards :
    (sendChatMessage "hi" (ChatOutcome.success "x") { emptyState with chatLoading := true }).2
        = false
    ∧ (sendChatMessage "hi" (ChatOutcome.success "x") { emptyState with chatLoading := true }).1
        = { emptyState with chatLoading := true }
    ∧ (fetchLesson (FetchOutcome.success "x")
        { emptyState with topic := "React", loading := true }).2.2 = true :=
  ⟨rfl, rfl, rfl⟩

/-- C2 (amended): on transport failure during lesson generation the
session state is not left as pre-call: the lesson, quiz, summary, score,
selections and chat history are all cleared (they are reset when the
request starts and never restored), and the transport error is surfaced
to the user as an alert. -/
theorem c2_transport_failure_clears (st : AppState) (h : jsTrim st.topic ≠ "") :
    fetchLesson FetchOutcome.failure st =
      ({ st with
           lesson := Json.str ""
           quiz := []
           summary := Json.str ""
           score := none
           selected := fun _ => none
           messages := []
           loading := false }, some transportAlert, true) := by
  unfold fetchLesson
  rw [if_neg h]

/-- A pre-call state with a visible lesson and a chat history. -/
def preState : AppState :=
  { emptyState with
      topic := "React"
      lesson := Json.str "old lesson"
      messages := [{ role := Role.user, content := "hey" }] }

/-- C2 counterexample: after a transport failure the state differs from
the pre-call state — the chat history and the lesson have been cleared,
so no prior lesson survives the failed call. -/
theorem c2_counterexample :
    (fetchLesson FetchOutcome.failure preState).1.messages = []
    ∧ preState.messages ≠ []
    ∧ (fetchLesson FetchOutcome.failure preState).1.lesson = Json.str ""
    ∧ preState.lesson = Json.str "old lesson" := by
  refine ⟨rfl, ?_, rfl, rfl⟩
  decide

/-- C2 witness: the amended statement at the concrete pre-call state. -/
theorem c2_witness :
    fetchLesson FetchOutcome.failure preState =
      ({ preState with
           lesson := Json.str ""
           quiz := []
           summary := Json.str ""
           score := none
           selected := fun _ => none
           messages := []
           loading := false }, some transportAlert, true) :=
  c2_transport_failure_clears preState (by decide)

/-- C1 (amended): whenever the raw text yields (directly or via the
extracted bracketed substring) an object whose `lesson` is a non-empty
string, whose `quiz` is any truthy value, and whose `summary` is a
non-empty string, `normalize` succeeds with exactly those values, the
quiz coerced to the empty sequence when not itself a sequence; when
nothing parses, or the `lesson`, `quiz` or `summary` property is missing
or falsy (in particular a `null`, `false`, `0` or empty-string quiz),
`normalize` fails and no partial record is surfaced. -/
theorem c1_normalize_roundtrip (raw : String) :
    (∀ (fs : List (String × Json)) (ls sm : String) (q : Json),
        extractJSON raw = some (Json.obj fs) →
        lookupLast fs "lesson" = some (Json.str ls) → ls ≠ "" →
        lookupLast fs "quiz" = some q → q.truthy = true →
        lookupLast fs "summary" = some (Json.str sm) → sm ≠ "" →
        normalize raw = some { lesson := Json.str ls, quiz := coerceQuiz q, summary := Json.str sm })
    ∧ (extractJSON raw = none → normalize raw = none)
    ∧ (∀ p : Json, extractJSON raw = some p →
        (truthyOpt (p.getField "lesson") = false ∨ truthyOpt (p.getField "quiz") = false
          ∨ truthyOpt (p.getField "summary") = false) →
        normalize raw = none) := by
  refine ⟨?_, ?_, ?_⟩
  · intro fs ls sm q hex hl hlne hq hqt hs hsne
    unfold normalize
    rw [hex]
    simp only [getField_obj, hl, hq, hs, truthyOpt, Json.truthy, Option.getD_some]
    rw [if_pos]
    simp only [Bool.and_eq_true, bne_iff_ne, ne_eq]
    exact ⟨⟨⟨trivial, hlne⟩, hqt⟩, hsne⟩
  · intro h
    unfold normalize
    rw [h]
  · intro p hex hfalse
    unfold normalize
    rw [hex]
    rcases hfalse with h | h | h <;>
      simp [h]

/-- Raw model text whose parse has a falsy (`null`) quiz field. -/
def rawFalsyQuiz : String :=
  "\x7b\"lesson\":\"a\",\"quiz\":null,\"summary\":\"b\"\x7d"

/-- C1 counterexample: this raw text parses directly as an object with a
non-empty `lesson`, a value for `quiz`, and a non-empty `summary`, yet
`normalize` fails: the code additionally requires `parsed.quiz` to be
truthy, and `null` is falsy. -/
theorem c1_counterexample :
    extractJSON rawFalsyQuiz
      = some (Json.obj [("lesson", Json.str "a"), ("quiz", Json.null), ("summary", Json.str "b")])
    ∧ normalize rawFalsyQuiz = none :=
  ⟨rfl, rfl⟩

/-- Raw model text with an empty (truthy) array quiz. -/
def rawEmptyQuiz : String :=
  "\x7b\"lesson\":\"a\",\"quiz\":[],\"summary\":\"b\"\x7d"

/-- C1 witness: the success direction at a concrete raw text. -/
theorem c1_witness :
    normalize rawEmptyQuiz
      = some { lesson := Json.str "a", quiz := coerceQuiz (Json.arr []), summary := Json.str "b" } :=
  (c1_normalize_roundtrip rawEmptyQuiz).1
    [("lesson", Json.str "a"), ("quiz", Json.arr []), ("summary", Json.str "b")]
    "a" "b" (Json.arr []) rfl rfl (by decide) rfl rfl rfl (by decide)

/-- Raw model text whose quiz contains an item with an empty options
array and a correct answer not among them. -/
def rawBadItem : String :=
  "\x7b\"lesson\":\"L\",\"quiz\":[\x7b\"q\":\"Q\",\"a\":[],\"correct\":\"z\"\x7d],\"summary\":\"S\"\x7d"

/-- The invalid quiz item surfaced by parsing `rawBadItem`. -/
def badItem : Json :=
  Json.obj [("q", Json.str "Q"), ("a", Json.arr []), ("correct", Json.str "z")]

/-- C4 counterexample: a generation attempt that goes through `normalize`
can surface a quiz item with zero options whose `correct` value is not
among them — the normalizer performs no per-item validation. -/
theorem c4_counterexample :
    (fetchLesson (FetchOutcome.success rawBadItem) { emptyState with topic := "T" }).1.quiz
        = [badItem]
    ∧ quizItemValid badItem = false :=
  ⟨rfl, rfl⟩

/-- C4 (amended): every quiz item produced by the Fallback Synthesizer
satisfies the invariant — exactly three pairwise-distinct options with
the correct option among them; items accepted by `normalize` are passed
through unvalidated. -/
theorem c4_fallback_items_valid (topic raw : String) :
    ((synthesize topic raw).quiz.all quizItemValid) = true := rfl

/-- C9 (amended): the snapshot saved by a quiz submission carries both
the selections and the score, but the startup load rehydrates only the
topic, lesson, quiz and summary into a fresh state: the restored session
has no selections and a `null` score, and no chat history is restored. -/
theorem c9_load_rehydrates (st : AppState) (snap : Snapshot)
    (hsave : (submitQuiz st).2 = some snap) :
    (loadSnapshot snap emptyState).quiz = st.quiz
    ∧ (loadSnapshot snap emptyState).topic = (if st.topic = "" then "" else st.topic)
    ∧ (loadSnapshot snap emptyState).lesson
        = (if st.lesson.truthy then st.lesson else Json.str "")
    ∧ (loadSnapshot snap emptyState).summary
        = (if st.summary.truthy then st.summary else Json.str "")
    ∧ (loadSnapshot snap emptyState).score = none
    ∧ (∀ i, (loadSnapshot snap emptyState).selected i = none)
    ∧ (loadSnapshot snap emptyState).messages = []
    ∧ snap.selected = some st.selected
    ∧ snap.score = some (countScore st.quiz st.selected) := by
  unfold submitQuiz at hsave
  by_cases hq : st.quiz.length = 0
  · rw [if_pos hq] at hsave
    exact absurd hsave (by simp)
  · rw [if_neg hq] at hsave
    simp only [Option.some.injEq] at hsave
    subst hsave
    exact ⟨rfl, rfl, rfl, rfl, rfl, fun i => rfl, rfl, rfl, rfl⟩

/-- A session with one answered question, about to be submitted. -/
def quizState : AppState :=
  { emptyState with
      topic := "T"
      quiz := [encodeItem { q := "Q", a := ["x", "y", "z"], correct := "y" }]
      selected := fun j => if j = 0 then some "y" else none }

/-- The snapshot `submitQuiz` persists for `quizState`. -/
def savedSnap : Snapshot :=
  { topic := "T"
    lesson := Json.str ""
    quiz := [encodeItem { q := "Q", a := ["x", "y", "z"], correct := "y" }]
    summary := Json.str ""
    selected := some quizState.selected
    score := some 1 }

/-- C9 counterexample: the snapshot persisted by the most recent quiz
interaction stores the selection for index 0 and a score of 1, yet
loading it yields a session with a `null` score and no selection — the
saved quiz progress is not rehydrated, contradicting the claim. -/
theorem c9_counterexample :
    (submitQuiz quizState).2 = some savedSnap
    ∧ savedSnap.score = some 1
    ∧ savedSnap.selected = some quizState.selected
    ∧ quizState.selected 0 = some "y"
    ∧ (loadSnapshot savedSnap emptyState).score = none
    ∧ (loadSnapshot savedSnap emptyState).selected 0 = none :=
  ⟨rfl, rfl, rfl, rfl, rfl, rfl⟩

/-- C9 witness: the amended statement at the concrete submitted session. -/
theorem c9_witness :
    (loadSnapshot savedSnap emptyState).quiz = quizState.quiz
    ∧ (loadSnapshot savedSnap emptyState).topic
        = (if quizState.topic = "" then "" else quizState.topic)
    ∧ (loadSnapshot savedSnap emptyState).lesson
        = (if quizState.lesson.truthy then quizState.lesson else Json.str "")
    ∧ (loadSnapshot savedSnap emptyState).summary
        = (if quizState.summary.truthy then quizState.summary else Json.str "")
    ∧ (loadSnapshot savedSnap emptyState).score = none
    ∧ (∀ i, (loadSnapshot savedSnap emptyState).selected i = none)
    ∧ (loadSnapshot savedSnap emptyState).messages = []
    ∧ savedSnap.selected = some quizState.selected
    ∧ savedSnap.score = some (countScore quizState.quiz quizState.selected) :=
  c9_load_rehydrates quizState savedSnap rfl

/-- C10: every chat call that passes the entry guard and runs to
completion appends exactly two turns, the user turn first and then an
assistant turn (the raw response on success, the fixed diagnostic text
when the request throws), so a completed call never leaves a user turn
as the final entry. -/
theorem c10_chat_appends (st : AppState) (text : String) (outcome : ChatOutcome)
    (h1 : text ≠ "") (h2 : st.chatLoading = false) :
    (sendChatMessage text outcome st).1.messages
      = st.messages ++ [{ role := Role.user, content := text },
          { role := Role.assistant, content := assistantReply outcome }]
    ∧ ((sendChatMessage text outcome st).1.messages).getLast?
        = some { role := Role.assistant, content := assistantReply outcome } := by
  have hguard : ¬ ((decide (text = "") || st.chatLoading) = true) := by
    simp [h1, h2]
  constructor
  · unfold sendChatMessage
    rw [if_neg hguard]
  · unfold sendChatMessage
    rw [if_neg hguard]
    show (st.messages ++ (([{ role := Role.user, content := text }] : List ChatTurn)
        ++ ([{ role := Role.assistant, content := assistantReply outcome }] : List ChatTurn))).getLast? = _
    rw [← List.append_assoc, List.getLast?_concat]

/-- C10 witness: a completed chat call at a concrete state. -/
theorem c10_witness :
    (sendChatMessage "hi" (ChatOutcome.success "ok") emptyState).1.messages
      = emptyState.messages ++ [{ role := Role.user, content := "hi" },
          { role := Role.assistant, content := assistantReply (ChatOutcome.success "ok") }]
    ∧ ((sendChatMessage "hi" (ChatOutcome.success "ok") emptyState).1.messages).getLast?
        = some { role := Role.assistant, content := assistantReply (ChatOutcome.success "ok") } :=
  c10_chat_appends emptyState "hi" (ChatOutcome.success "ok") (by decide) rfl

/-- C6: for every item list and sequence of `select` calls, submitting an
empty quiz is a no-op returning no score, and otherwise the score equals
the number of indices whose final selection equals the item's correct
option — indices never selected count as incorrect. -/
theorem c6_submit_score (items : List QuizItem) (ops : List (Nat × String)) :
    (items = [] →
      submitQuiz (applySelects ops (initQuizState (items.map encodeItem)))
        = (applySelects ops (initQuizState (items.map encodeItem)), none))
    ∧ (items ≠ [] →
      (submitQuiz (applySelects ops (initQuizState (items.map encodeItem)))).1.score
        = some ((items.enum.filter (fun p => finalSel ops p.1 == some p.2.correct)).length)) := by
  obtain ⟨hscore, hquiz, hsel⟩ :=
    applySelects_spec ops (initQuizState (items.map encodeItem)) rfl
  constructor
  · intro h
    subst h
    have hlen : (applySelects ops
        (initQuizState (([] : List QuizItem).map encodeItem))).quiz.length = 0 := by
      rw [hquiz]; rfl
    unfold submitQuiz
    rw [if_pos hlen]
  · intro h
    have hlen : ¬ ((applySelects ops (initQuizState (items.map encodeItem))).quiz.length = 0) := by
      rw [hquiz]
      show ¬ ((items.map encodeItem).length = 0)
      rw [List.length_map]
      intro hc
      exact h (List.eq_nil_of_length_eq_zero hc)
    unfold submitQuiz
    rw [if_neg hlen]
    simp only [Option.some.injEq]
    have hs : ∀ i, (applySelects ops (initQuizState (items.map encodeItem))).selected i
        = finalSel ops i := fun i => hsel i
    calc countScore (applySelects ops (initQuizState (items.map encodeItem))).quiz
            (applySelects ops (initQuizState (items.map encodeItem))).selected
        = countScore (items.map encodeItem)
            (applySelects ops (initQuizState (items.map encodeItem))).selected := by
              rw [hquiz]; rfl
      _ = countScore (items.map encodeItem) (finalSel ops) :=
          countScore_congr _ _ _ hs
      _ = ((items.enum.filter (fun p => finalSel ops p.1 == some p.2.correct)).length) :=
          countScore_encode items (finalSel ops)

/-- C6 witness: one item, the correct option selected, score 1; the
no-op direction on the empty item list. -/
theorem c6_witness :
    (submitQuiz (applySelects [(0, "y")]
        (initQuizState (([{ q := "Q", a := ["x", "y", "z"], correct := "y" }] :
          List QuizItem).map encodeItem)))).1.score
      = some ((([{ q := "Q", a := ["x", "y", "z"], correct := "y" }] :
          List QuizItem).enum.filter
            (fun p => finalSel [(0, "y")] p.1 == some p.2.correct)).length)
    ∧ submitQuiz (applySelects [(0, "y")] (initQuizState (([] : List QuizItem).map encodeItem)))
        = (applySelects [(0, "y")] (initQuizState (([] : List QuizItem).map encodeItem)), none) :=
  ⟨(c6_submit_score [{ q := "Q", a := ["x", "y", "z"], correct := "y" }] [(0, "y")]).2
      (by simp),
   (c6_submit_score [] [(0, "y")]).1 rfl⟩

end AutoTutor
